import Mathlib

/-!
Verification of the ASL web-demo repository's core application logic.

Each definition below is a shallow embedding of a function from the
TypeScript source, with the source file and line range noted next to it.
JavaScript numbers are modelled as real numbers where square roots occur
(landmark geometry), and as rationals or integers elsewhere (confidences,
timestamps, pixel bytes).  Randomness (`Math.random()`) is modelled by
explicit rational parameters.
-/

set_option maxHeartbeats 1000000

/-- A MediaPipe/Handpose hand landmark (`HandLandmark` in
`src/hooks/useHandpose.ts` and `src/hooks/useASLModel.tsx`):
normalised x, y, z coordinates. -/
structure HandLandmark where
  x : ℝ
  y : ℝ
  z : ℝ

/-- The zero landmark, used as the (never-reached) default for in-bounds
list reads. -/
def zeroLm : HandLandmark := ⟨0, 0, 0⟩

/-- A classification result (`ASLPrediction` in `src/hooks/useASLGestures.ts`):
a letter string and a confidence. -/
structure ASLPrediction where
  letter : String
  confidence : ℚ
deriving DecidableEq

/-- `getDistance` from `src/hooks/useASLGestures.ts` lines 236-237 and
`src/hooks/useASLModel.tsx` lines 162-163: planar Euclidean distance,
using only the x and y coordinates. -/
noncomputable def getDistance (p1 p2 : HandLandmark) : ℝ :=
  Real.sqrt ((p1.x - p2.x) ^ 2 + (p1.y - p2.y) ^ 2)

/-- The five wrist-to-fingertip distances computed by both heuristic
classifiers (`useASLGestures.ts` lines 228-243, `useASLModel.tsx` lines
154-169): wrist is landmark 0, the fingertips are landmarks 4, 8, 12, 16
and 20 (thumb, index, middle, ring, pinky). -/
noncomputable def tipDistances (landmarks : List HandLandmark) : List ℝ :=
  [getDistance (landmarks.getD 0 zeroLm) (landmarks.getD 4 zeroLm),
   getDistance (landmarks.getD 0 zeroLm) (landmarks.getD 8 zeroLm),
   getDistance (landmarks.getD 0 zeroLm) (landmarks.getD 12 zeroLm),
   getDistance (landmarks.getD 0 zeroLm) (landmarks.getD 16 zeroLm),
   getDistance (landmarks.getD 0 zeroLm) (landmarks.getD 20 zeroLm)]

/-- The extended-finger flags (`useASLGestures.ts` lines 245-254 with
factor 0.7, `useASLModel.tsx` lines 172-181 with factor 0.75): a finger
counts as extended exactly when its wrist distance strictly exceeds
the mean of the five distances multiplied by `factor`. -/
noncomputable def extendedPattern (landmarks : List HandLandmark) (factor : ℝ) :
    List Bool :=
  match tipDistances landmarks with
  | [thumbDist, indexDist, middleDist, ringDist, pinkyDist] =>
    let avgDist := (thumbDist + indexDist + middleDist + ringDist + pinkyDist) / 5
    let threshold := avgDist * factor
    [decide (thumbDist > threshold), decide (indexDist > threshold),
     decide (middleDist > threshold), decide (ringDist > threshold),
     decide (pinkyDist > threshold)]
  | _ => []

/-- `extendedFingers.filter(Boolean).length` (`useASLGestures.ts` line 256,
`useASLModel.tsx` line 184). -/
def extendedCount (extendedFingers : List Bool) : ℕ :=
  (extendedFingers.filter id).length

/-- The classification table of `generateHeuristicPrediction` in
`src/hooks/useASLGestures.ts` lines 258-274, as a function of the
extended-finger flags. -/
def gesturesClassify (extendedFingers : List Bool) : ASLPrediction :=
  let n := extendedCount extendedFingers
  if n = 0 then ⟨"A", 7/10⟩
  else if n = 1 then
    if extendedFingers.getD 1 false then ⟨"D", 4/5⟩
    else if extendedFingers.getD 4 false then ⟨"I", 4/5⟩
    else ⟨"A", 3/5⟩
  else if n = 2 then
    if extendedFingers.getD 1 false && extendedFingers.getD 2 false then ⟨"V", 4/5⟩
    else if extendedFingers.getD 0 false && extendedFingers.getD 1 false then ⟨"L", 4/5⟩
    else if extendedFingers.getD 0 false && extendedFingers.getD 4 false then ⟨"Y", 4/5⟩
    else ⟨"V", 3/5⟩
  else if n = 4 then ⟨"B", 7/10⟩
  else ⟨"B", 3/5⟩

/-- The classification table of `generateHeuristicPrediction` in
`src/hooks/useASLModel.tsx` lines 186-206, as a function of the
extended-finger flags and the `Math.random()` draw used by the
closed-fist branch (`Math.random() > 0.5 ? 'A' : 'S'`). -/
def modelClassify (extendedFingers : List Bool) (rand : ℚ) : ASLPrediction :=
  let n := extendedCount extendedFingers
  if n = 0 then (if rand > 1/2 then ⟨"A", 3/4⟩ else ⟨"S", 3/4⟩)
  else if n = 1 then
    if extendedFingers.getD 1 false then ⟨"D", 4/5⟩
    else if extendedFingers.getD 4 false then ⟨"I", 4/5⟩
    else if extendedFingers.getD 0 false then ⟨"A", 7/10⟩
    else ⟨"A", 7/10⟩
  else if n = 2 then
    if extendedFingers.getD 1 false && extendedFingers.getD 2 false then ⟨"V", 17/20⟩
    else if extendedFingers.getD 0 false && extendedFingers.getD 1 false then ⟨"L", 4/5⟩
    else ⟨"U", 3/4⟩
  else if n = 3 then ⟨"W", 3/4⟩
  else if n = 4 then ⟨"B", 4/5⟩
  else ⟨"B", 7/10⟩

/-- `generateHeuristicPrediction` from `src/hooks/useASLGestures.ts` lines
225-279.  A landmark array shorter than 21 makes the JavaScript body read a
property of `undefined`, so the `catch` branch returns `{letter 'A',
confidence 0.5}`; otherwise the function computes the wrist distances,
thresholds them at 0.7 times their mean and classifies the flag pattern. -/
noncomputable def heurGestures (landmarks : List HandLandmark) : ASLPrediction :=
  if landmarks.length < 21 then ⟨"A", 1/2⟩
  else gesturesClassify (extendedPattern landmarks (7/10))

/-- `generateHeuristicPrediction` from `src/hooks/useASLModel.tsx` lines
151-212, with the threshold factor 0.75 and the Model classification
table; `rand` is the `Math.random()` draw of the closed-fist branch. -/
noncomputable def heurModel (landmarks : List HandLandmark) (rand : ℚ) : ASLPrediction :=
  if landmarks.length < 21 then ⟨"A", 1/2⟩
  else modelClassify (extendedPattern landmarks (3/4)) rand

/-- A gesture returned by the third-party fingerpose estimator: a name and
a score. -/
structure FPGesture where
  name : String
  score : ℚ

/-- The names of the ten gestures registered with the fingerpose estimator
in `createGestureEstimator` (`src/hooks/useASLGestures.ts` lines 12-189). -/
def fingerposeGestureNames : List String :=
  ["A", "B", "C", "D", "F", "I", "L", "O", "V", "Y"]

/-- `ASL_LABELS` from `src/hooks/useASLModel.tsx` lines 24-25. -/
def aslLabels : List String :=
  ["A", "B", "C", "D", "E", "F", "G", "H", "I", "J", "K", "L", "M",
   "N", "O", "P", "Q", "R", "S", "T", "U", "V", "W", "X", "Y", "Z"]

/-- `predictGesture` from `src/hooks/useASLGestures.ts` lines 192-222.
The third-party estimator is a parameter `estimate`; the function throws
(and falls back to the heuristic) when the landmark list does not have
exactly 21 entries, scales the landmarks to 640 by 480, and returns the
first estimator gesture, falling back to the heuristic when the estimator
returns none. -/
noncomputable def predictGesture (estimate : List (ℝ × ℝ × ℝ) → List FPGesture)
    (landmarks : List HandLandmark) : ASLPrediction :=
  if landmarks.length ≠ 21 then heurGestures landmarks
  else
    let landmarkArray := landmarks.map fun p => (p.x * 640, p.y * 480, p.z)
    match estimate landmarkArray with
    | bestGesture :: _ => ⟨bestGesture.name, bestGesture.score⟩
    | [] => heurGestures landmarks

/-- `extractFeatures` from `src/hooks/useASLModel.tsx` lines 70-105:
errors unless there are exactly 21 landmarks, then normalises relative to
the wrist, flattens to 63 features and appends the ten pairwise 3-D
fingertip distances. -/
noncomputable def extractFeatures (landmarks : List HandLandmark) :
    Except String (List ℝ) :=
  if landmarks.length ≠ 21 then Except.error "Expected 21 hand landmarks"
  else
    let wrist := landmarks.getD 0 zeroLm
    let normalizedLandmarks := landmarks.map fun p =>
      (⟨p.x - wrist.x, p.y - wrist.y, p.z - wrist.z⟩ : HandLandmark)
    let landmarkFeatures := normalizedLandmarks.flatMap fun p => [p.x, p.y, p.z]
    let tipIndices : List ℕ := [4, 8, 12, 16, 20]
    let distanceFeatures := (List.range tipIndices.length).flatMap fun i =>
      ((List.range tipIndices.length).drop (i + 1)).map fun j =>
        let p1 := normalizedLandmarks.getD (tipIndices.getD i 0) zeroLm
        let p2 := normalizedLandmarks.getD (tipIndices.getD j 0) zeroLm
        Real.sqrt ((p1.x - p2.x) ^ 2 + (p1.y - p2.y) ^ 2 + (p1.z - p2.z) ^ 2)
    Except.ok (landmarkFeatures ++ distanceFeatures)

/-!
## The pixel-colour/motion hand detector

`useHandDetection.detectHandInFrame`, `src/hooks/useASLRecognition.tsx`
lines 183-315.  A video frame is an RGBA byte array of a given width and
height; `data` gives the byte at each index.  JavaScript reads of
out-of-range or fractional indices give `undefined`, modelled as `none`;
any arithmetic with `undefined` produces `NaN`, whose comparisons are all
false, so such pixels contribute to no counter except the total.
-/

/-- A downscaled video frame: an `ImageData` of `4 * width * height` bytes. -/
structure Frame where
  width : ℕ
  height : ℕ
  data : ℕ → ℤ

/-- Reading `data[i]` at a rational index: defined only for integral
indices inside the array. -/
def px (f : Frame) (i : ℚ) : Option ℤ :=
  if 0 ≤ i ∧ i.den = 1 ∧ i.num < 4 * f.width * f.height then
    some (f.data i.num.toNat)
  else none

/-- The values visited by a JavaScript loop `for (let v = lo; v < hi; v++)`
with (possibly fractional) rational bounds. -/
def qRange (lo hi : ℚ) : List ℚ :=
  (List.range (⌈hi - lo⌉.toNat)).map fun k => lo + k

/-- The y values of the centred search region (lines 204, 215):
`max(0, centerY - searchRadius)` up to `min(height, centerY + searchRadius)`
with `searchRadius = min(width, height) * 0.3`. -/
def searchYs (f : Frame) : List ℚ :=
  let centerY : ℚ := (f.height : ℚ) / 2
  let searchRadius : ℚ := (min f.width f.height : ℕ) * (3/10)
  qRange (max 0 (centerY - searchRadius)) (min (f.height : ℚ) (centerY + searchRadius))

/-- The x values of the centred search region (lines 202, 216). -/
def searchXs (f : Frame) : List ℚ :=
  let centerX : ℚ := (f.width : ℚ) / 2
  let searchRadius : ℚ := (min f.width f.height : ℕ) * (3/10)
  qRange (max 0 (centerX - searchRadius)) (min (f.width : ℚ) (centerX + searchRadius))

/-- `isValidSkin` (lines 235-241): the restrictive skin-colour test. -/
def isValidSkin (r g b : ℤ) : Bool :=
  decide (r > 95) && decide (g > 40) && decide (b > 20) &&
  decide (r > g) && decide (r > b) &&
  decide (max r (max g b) - min r (min g b) > 15) &&
  decide (|r - g| > 15) &&
  decide (r < 250) && decide (g < 250) && decide (b < 250)

/-- The `(dy, dx)` offsets of the colour-variation scan (lines 248-263):
`checkRadius = 3`, both loops from -3 to 3. -/
def variationOffsets : List (ℤ × ℤ) :=
  (List.range 7).flatMap fun a => (List.range 7).map fun b => ((a : ℤ) - 3, (b : ℤ) - 3)

/-- One term of the colour-variation sum (lines 250-263): out-of-bounds
neighbours are skipped (contribute 0); an `undefined` byte read poisons
the whole sum (`none`, the NaN case). -/
def variationTerm (cur : Frame) (x y : ℚ) (r g b : ℤ) (d : ℤ × ℤ) : Option ℤ :=
  let checkX := x + (d.2 : ℚ)
  let checkY := y + (d.1 : ℚ)
  if 0 ≤ checkX ∧ checkX < (cur.width : ℚ) ∧ 0 ≤ checkY ∧ checkY < (cur.height : ℚ) then
    let checkI := (checkY * cur.width + checkX) * 4
    match px cur checkI, px cur (checkI + 1), px cur (checkI + 2) with
    | some checkR, some checkG, some checkB =>
      some (|r - checkR| + |g - checkG| + |b - checkB|)
    | _, _, _ => none
  else some 0

/-- `colorVariation` (lines 247-264): the summed per-channel difference to
all neighbours within the 7-by-7 window. -/
def colorVariation (cur : Frame) (x y : ℚ) (r g b : ℤ) : Option ℤ :=
  variationOffsets.foldl
    (fun acc d =>
      match acc, variationTerm cur x y r g b d with
      | some a, some v => some (a + v)
      | _, _ => none)
    (some 0)

/-- The contribution of one search-region pixel (lines 217-270):
`(handAdd, motionAdd)`.  The pixel counts as motion when the summed
per-channel difference to the previous frame exceeds 30; it counts as a
hand pixel when it passes `isValidSkin` and its colour variation exceeds
200. -/
def pixelStep (prev cur : Frame) (x y : ℚ) : ℕ × ℕ :=
  let i := (y * cur.width + x) * 4
  let motionAdd : ℕ :=
    match px cur i, px cur (i + 1), px cur (i + 2),
          px prev i, px prev (i + 1), px prev (i + 2) with
    | some r, some g, some b, some prevR, some prevG, some prevB =>
      if |r - prevR| + |g - prevG| + |b - prevB| > 30 then 1 else 0
    | _, _, _, _, _, _ => 0
  let handAdd : ℕ :=
    match px cur i, px cur (i + 1), px cur (i + 2) with
    | some r, some g, some b =>
      if isValidSkin r g b then
        match colorVariation cur x y r g b with
        | some v => if v > 200 then 1 else 0
        | none => 0
      else 0
    | _, _, _ => 0
  (handAdd, motionAdd)

/-- The double loop of lines 215-272: accumulates
`(handPixels, motionPixels, totalSearchPixels)` over the search region. -/
def detectStats (prev cur : Frame) : ℕ × ℕ × ℕ :=
  (searchYs cur).foldl
    (fun acc y =>
      (searchXs cur).foldl
        (fun acc2 x =>
          let c := pixelStep prev cur x y
          (acc2.1 + c.1, acc2.2.1 + c.2, acc2.2.2 + 1))
        acc)
    (0, 0, 0)

/-- `isHandDetected` (lines 210-289): the whole loop runs only when a
previous frame is stored, `hasMotion` requires a stored previous frame and
a motion ratio above 0.05, and detection is the conjunction of the two
hand-ratio bounds, motion, and the absolute hand-pixel count. -/
def detectHand (prev : Option Frame) (cur : Frame) : Bool :=
  let s := match prev with
    | some p => detectStats p cur
    | none => (0, 0, 0)
  let handPixels := s.1
  let motionPixels := s.2.1
  let totalSearchPixels := s.2.2
  let hasMotion := prev.isSome &&
    decide ((motionPixels : ℚ) / totalSearchPixels > 1/20)
  let handRatio : ℚ := (handPixels : ℚ) / totalSearchPixels
  decide (handRatio > 2/25) && decide (handRatio < 2/5) &&
    hasMotion && decide (handPixels > 50)

/-!
## Mock sign data

`src/data/mockSignData.ts`.
-/

/-- The 26 keys of `mockSignData` (`src/data/mockSignData.ts` lines 3-30). -/
def mockSignKeys : List String :=
  ["A", "B", "C", "D", "E", "F", "G", "H", "I", "J", "K", "L", "M",
   "N", "O", "P", "Q", "R", "S", "T", "U", "V", "W", "X", "Y", "Z"]

/-- `aslSequences` (`src/data/mockSignData.ts` lines 33-50): the 16
predefined letters with their base confidences. -/
def aslSequences : List (String × ℚ) :=
  [("A", 85/100), ("B", 90/100), ("C", 88/100), ("D", 87/100),
   ("E", 83/100), ("F", 89/100), ("G", 86/100), ("H", 91/100),
   ("I", 84/100), ("L", 92/100), ("O", 88/100), ("R", 85/100),
   ("S", 90/100), ("U", 87/100), ("V", 93/100), ("Y", 86/100)]

/-- `easyLetters` (`src/data/mockSignData.ts` line 63). -/
def easyLetters : List String := ["A", "B", "L", "O", "V", "Y"]

/-- `mediumLetters` (`src/data/mockSignData.ts` line 64). -/
def mediumLetters : List String := ["C", "D", "F", "G", "H", "I", "R", "S", "U"]

/-- `detectSign` (`src/data/mockSignData.ts` lines 54-83).  The
`landmarks` argument is never read.  `rEasy`, `rIdx` and `rConf` are the
three `Math.random()` draws used for the pool choice, the index into the
pool, and the confidence variation; the simulated processing delay does
not affect the resolved value and is omitted.  An out-of-range index read
(`undefined` in JavaScript, impossible for draws in `[0,1)`) is modelled
by the empty string. -/
def detectSign {α : Type} (_landmarks : α) (rEasy rIdx rConf : ℚ) : String × ℚ :=
  let useEasyLetter := rEasy < 3/5
  let letterPool := if useEasyLetter then easyLetters else mediumLetters
  let selectedLetter := letterPool.getD (⌊rIdx * (letterPool.length : ℚ)⌋.toNat) ""
  let baseConfidence := (aslSequences.lookup selectedLetter).getD (8/10)
  let confidenceVariation := (rConf - 1/2) * (1/5)
  let finalConfidence := max (3/5) (min (19/20) (baseConfidence + confidenceVariation))
  (selectedLetter, finalConfidence)

/-- `TextToSign.handleSubmit` (unnamed component source, `handleSubmit`):
with non-blank trimmed input, the uppercased first character is shown when
it is a `mockSignData` key, otherwise a random key (index
`floor(rand * 26)`); blank input leaves the current sign unchanged. -/
def handleSubmitTTS (inputText : String) (rand : ℚ) (currentSign : Option String) :
    Option String :=
  if inputText.trim ≠ "" then
    let firstLetter := (inputText.trim.take 1).toUpper
    if firstLetter ∈ mockSignKeys then some firstLetter
    else some (mockSignKeys.getD (⌊rand * (mockSignKeys.length : ℚ)⌋.toNat) "")
  else currentSign

/-!
## MediaPipe throttling glue

`initializeMediaPipe`, `src/hooks/useMediaPipeHands.tsx` lines 85-142.
-/

/-- `RESULT_THROTTLE` (line 86): hand-tracking results are processed at
most every 200 ms. -/
def RESULT_THROTTLE : ℤ := 200

/-- `FRAME_THROTTLE` (line 119): camera frames are forwarded to the model
at most every 100 ms. -/
def FRAME_THROTTLE : ℤ := 100

/-- The `handsResult` state of `useMediaPipeHands`. -/
structure HandsResult where
  landmarks : List (List HandLandmark)
  isDetected : Bool
  confidence : ℚ

/-- A MediaPipe results payload: the detected hands' landmark lists and
the optional handedness score. -/
structure MPResult where
  multiHandLandmarks : List (List HandLandmark)
  handednessScore : Option ℚ

/-- The body of the `onResults` callback once a result is accepted
(lines 93-113): first hand's landmarks and the handedness score
(default 0.8), or the empty not-detected state. -/
def processResults (r : MPResult) : HandsResult :=
  match r.multiHandLandmarks with
  | first :: _ => ⟨[first], true, r.handednessScore.getD (4/5)⟩
  | [] => ⟨[], false, 0⟩

/-- One `onResults` invocation (lines 88-113): state is the pair of
`lastResultTime` and the current `handsResult`; a result arriving sooner
than `RESULT_THROTTLE` after the last accepted one is dropped without any
state change. -/
def onResultsStep (s : ℤ × HandsResult) (ev : ℤ × MPResult) : ℤ × HandsResult :=
  if ev.1 - s.1 < RESULT_THROTTLE then s
  else (ev.1, processResults ev.2)

/-- The times at which a throttled callback fires, given the throttle
interval, the initial `last*Time` (0 in the source), and the arrival
times: an arrival sooner than `interval` after the last accepted one is
skipped and does not update the stored time (lines 88-92 and 120-126). -/
def throttleTimes (interval : ℤ) : ℤ → List ℤ → List ℤ
  | _, [] => []
  | last, t :: ts =>
    if t - last < interval then throttleTimes interval last ts
    else t :: throttleTimes interval t ts

/-!
## Detection history state

`SignToText.handleDetection` (unnamed component source) and
`App.handleDetection` (`src/App.tsx` in the App variant source).
-/

/-- A `Translation` entry of the SignToText history: detected letter,
timestamp and confidence. -/
structure Translation where
  text : String
  timestamp : ℤ
  confidence : ℚ
deriving DecidableEq

/-- `SignToText.handleDetection`: ignores empty letters; adds a new entry
only when the letter differs from the most recent entry or more than
2000 ms have passed since it; prepends and keeps at most 15 entries
(`[newTranslation, ...prev].slice(0, 15)`). -/
def signToTextStep (translations : List Translation) (letter : String)
    (confidence : ℚ) (now : ℤ) : List Translation :=
  if letter = "" then translations
  else
    let shouldAdd :=
      match translations with
      | [] => true
      | lastTranslation :: _ =>
        decide (lastTranslation.text ≠ letter) ||
        decide (now - lastTranslation.timestamp > 2000)
    if shouldAdd then (⟨letter, now, confidence⟩ :: translations).take 15
    else translations

/-- A prediction entry of the App history: letter, confidence, timestamp. -/
structure AppPrediction where
  letter : String
  confidence : ℚ
  timestamp : ℤ
deriving DecidableEq

/-- `App.handleDetection`: adds only when the letter differs from the most
recent entry or more than 2000 ms have passed, and only when the
confidence exceeds 0.6; prepends and keeps at most 50 entries
(`[newPrediction, ...prev].slice(0, 50)`). -/
def appHandleDetection (predictions : List AppPrediction) (pred : String × ℚ)
    (now : ℤ) : List AppPrediction :=
  let shouldAdd :=
    match predictions with
    | [] => true
    | lastPrediction :: _ =>
      decide (lastPrediction.letter ≠ pred.1) ||
      decide (now - lastPrediction.timestamp > 2000)
  if shouldAdd && decide (pred.2 > 3/5) then
    (⟨pred.1, pred.2, now⟩ :: predictions).take 50
  else predictions

/-!
## Concrete inputs used by witnesses and counterexamples
-/

/-- A landmark at x = 1 on the wrist's horizontal axis. -/
def oneLm : HandLandmark := ⟨1, 0, 0⟩

/-- 21 coincident landmarks: every wrist-to-fingertip distance is 0, so no
finger is extended. -/
def Z21 : List HandLandmark := List.replicate 21 zeroLm

/-- A wrist at the origin with all other landmarks at distance 1: every
finger is extended. -/
def W21 : List HandLandmark := zeroLm :: List.replicate 20 oneLm

/-!
## Helper lemmas
-/

/-- An in-bounds default read returns an element of the list. -/
theorem getD_mem {α : Type} (l : List α) (i : ℕ) (d : α) (h : i < l.length) :
    l.getD i d ∈ l := by
  induction l generalizing i with
  | nil => simp at h
  | cons a t ih =>
    cases i with
    | zero => simp [List.getD]
    | succ j =>
      have hj : j < t.length := by simpa using h
      have : (a :: t).getD (j + 1) d = t.getD j d := rfl
      rw [this]
      exact List.mem_cons_of_mem _ (ih j hj)

/-- `Math.floor(r * n)` is a valid index for draws `r` in `[0, 1)`. -/
theorem floorIdxLt {r : ℚ} {n : ℕ} (h0 : 0 ≤ r) (h1 : r < 1) (hn : 0 < n) :
    (⌊r * (n : ℚ)⌋).toNat < n := by
  have hlt : r * (n : ℚ) < n := by
    calc r * (n : ℚ) < 1 * n := by
          apply mul_lt_mul_of_pos_right h1
          exact_mod_cast hn
    _ = n := one_mul _
  have h2 : ⌊r * (n : ℚ)⌋ < (n : ℤ) := Int.floor_lt.mpr (by exact_mod_cast hlt)
  have h3 : 0 ≤ ⌊r * (n : ℚ)⌋ := Int.floor_nonneg.mpr (mul_nonneg h0 (by positivity))
  omega

/-- Coincident landmarks have five zero wrist distances. -/
theorem tipDistances_Z21 : tipDistances Z21 = [0, 0, 0, 0, 0] := by
  have h : getDistance zeroLm zeroLm = 0 := by
    simp [getDistance, zeroLm]
  show [getDistance zeroLm zeroLm, getDistance zeroLm zeroLm,
        getDistance zeroLm zeroLm, getDistance zeroLm zeroLm,
        getDistance zeroLm zeroLm] = [0, 0, 0, 0, 0]
  simp [h]

/-- With all distances zero, no finger exceeds the threshold, for any
factor. -/
theorem extendedPattern_Z21 (factor : ℝ) :
    extendedPattern Z21 factor = [false, false, false, false, false] := by
  unfold extendedPattern
  rw [tipDistances_Z21]
  norm_num

/-- The spread hand has five unit wrist distances. -/
theorem tipDistances_W21 : tipDistances W21 = [1, 1, 1, 1, 1] := by
  have h : getDistance zeroLm oneLm = 1 := by
    have hsq : ((zeroLm.x - oneLm.x) ^ 2 + (zeroLm.y - oneLm.y) ^ 2 : ℝ) = 1 := by
      norm_num [zeroLm, oneLm]
    rw [getDistance, hsq, Real.sqrt_one]
  show [getDistance zeroLm oneLm, getDistance zeroLm oneLm,
        getDistance zeroLm oneLm, getDistance zeroLm oneLm,
        getDistance zeroLm oneLm] = [1, 1, 1, 1, 1]
  simp [h]

/-- The spread hand has all five fingers extended at factor 0.75. -/
theorem extendedPattern_W21 :
    extendedPattern W21 (3/4) = [true, true, true, true, true] := by
  unfold extendedPattern
  rw [tipDistances_W21]
  norm_num

/-- Once at least one finger is extended, the Model classification table
never consults the random draw. -/
theorem modelClassify_rand_irrel (flags : List Bool) (r1 r2 : ℚ)
    (h : extendedCount flags ≠ 0) :
    modelClassify flags r1 = modelClassify flags r2 := by
  simp only [modelClassify]
  rw [if_neg h, if_neg h]

/-- The Gestures classification table only emits uppercase ASL letters with
positive confidence. -/
theorem gesturesClassify_range (flags : List Bool) :
    (gesturesClassify flags).letter ∈ aslLabels ∧
    0 < (gesturesClassify flags).confidence := by
  simp only [gesturesClassify]
  repeat' split
  all_goals norm_num [aslLabels]

/-- The Model classification table only emits the nine letters of its
branch table, with confidence between 0.5 and 0.85. -/
theorem modelClassify_range (flags : List Bool) (rand : ℚ) :
    (modelClassify flags rand).letter ∈ ["A", "S", "D", "I", "V", "L", "U", "W", "B"] ∧
    1/2 ≤ (modelClassify flags rand).confidence ∧
    (modelClassify flags rand).confidence ≤ 17/20 := by
  simp only [modelClassify]
  repeat' split
  all_goals norm_num

/-- The Gestures heuristic only emits uppercase ASL letters with positive
confidence, on any input. -/
theorem heurGestures_range (l : List HandLandmark) :
    (heurGestures l).letter ∈ aslLabels ∧ 0 < (heurGestures l).confidence := by
  unfold heurGestures
  split
  · norm_num [aslLabels]
  · exact gesturesClassify_range _

/-!
## Claim theorems
-/

/-- C1, counterexample.  The claim says the heuristic letter is selected
solely from the count and pattern of extended fingers.  On 21 coincident
landmarks the pattern is the same in every run, yet the useASLModel
heuristic returns 'A' for a random draw of 0.6 and 'S' for a draw of 0.4:
the letter also depends on the `Math.random()` draw. -/
theorem c1_counterexample :
    (heurModel Z21 (3/5)).letter = "A" ∧ (heurModel Z21 (2/5)).letter = "S" := by
  have hlen : ¬(Z21.length < 21) := by simp [Z21]
  constructor
  · rw [heurModel, if_neg hlen, extendedPattern_Z21]
    norm_num [modelClassify, extendedCount]
  · rw [heurModel, if_neg hlen, extendedPattern_Z21]
    norm_num [modelClassify, extendedCount]

/-- C1 (amended).  For arrays of 21 landmarks both heuristics factor
through the extended-finger pattern computed from the planar wrist
distances thresholded at the mean times the factor (0.7 for useASLGestures,
0.75 for useASLModel); the useASLGestures letter is a function of the
pattern alone, and the useASLModel letter is a function of the pattern
alone whenever at least one finger is extended (for a fixed random draw it
is always a function of the pattern). -/
theorem c1_heuristic_threshold_pattern (l1 l2 : List HandLandmark) (r1 r2 : ℚ)
    (h1 : l1.length = 21) (h2 : l2.length = 21) :
    heurGestures l1 = gesturesClassify (extendedPattern l1 (7/10)) ∧
    heurModel l1 r1 = modelClassify (extendedPattern l1 (3/4)) r1 ∧
    (extendedPattern l1 (7/10) = extendedPattern l2 (7/10) →
      heurGestures l1 = heurGestures l2) ∧
    (extendedPattern l1 (3/4) = extendedPattern l2 (3/4) →
      heurModel l1 r1 = heurModel l2 r1) ∧
    (extendedPattern l1 (3/4) = extendedPattern l2 (3/4) →
      extendedCount (extendedPattern l1 (3/4)) ≠ 0 →
      (heurModel l1 r1).letter = (heurModel l2 r2).letter) := by
  have hn1 : ¬(l1.length < 21) := by omega
  have hn2 : ¬(l2.length < 21) := by omega
  have eg1 : heurGestures l1 = gesturesClassify (extendedPattern l1 (7/10)) := by
    rw [heurGestures, if_neg hn1]
  have eg2 : heurGestures l2 = gesturesClassify (extendedPattern l2 (7/10)) := by
    rw [heurGestures, if_neg hn2]
  have em1 : ∀ r, heurModel l1 r = modelClassify (extendedPattern l1 (3/4)) r := by
    intro r; rw [heurModel, if_neg hn1]
  have em2 : ∀ r, heurModel l2 r = modelClassify (extendedPattern l2 (3/4)) r := by
    intro r; rw [heurModel, if_neg hn2]
  refine ⟨eg1, em1 r1, ?_, ?_, ?_⟩
  · intro hp; rw [eg1, eg2, hp]
  · intro hp; rw [em1 r1, em2 r1, hp]
  · intro hp hc
    rw [em1 r1, em2 r2, ← hp]
    exact congrArg ASLPrediction.letter (modelClassify_rand_irrel _ r1 r2 hc)

/-- C1, witness: on the spread hand every finger is extended, so the
useASLModel letters for two different draws agree. -/
theorem c1_heuristic_threshold_pattern_witness :
    (heurModel W21 0).letter = (heurModel W21 1).letter := by
  have h := (c1_heuristic_threshold_pattern W21 W21 0 1
    (by simp [W21]) (by simp [W21])).2.2.2.2
  exact h rfl (by rw [extendedPattern_W21]; decide)

/-- C3.  For landmark lists whose length is not 21, `predictGesture` never
invokes the estimator (its result does not depend on it) and returns the
heuristic fallback, and `extractFeatures` raises the 21-landmark error. -/
theorem c3_requires_21_landmarks (estimate : List (ℝ × ℝ × ℝ) → List FPGesture)
    (l : List HandLandmark) (h : l.length ≠ 21) :
    predictGesture estimate l = heurGestures l ∧
    (∀ estimate2, predictGesture estimate l = predictGesture estimate2 l) ∧
    extractFeatures l = Except.error "Expected 21 hand landmarks" := by
  refine ⟨?_, ?_, ?_⟩
  · rw [predictGesture, if_pos h]
  · intro e2; rw [predictGesture, if_pos h, predictGesture, if_pos h]
  · rw [extractFeatures, if_pos h]

/-- C3, witness: the empty landmark list. -/
theorem c3_requires_21_landmarks_witness :
    predictGesture (fun _ => []) [] = heurGestures [] ∧
    (∀ estimate2, predictGesture (fun _ => []) [] = predictGesture estimate2 []) ∧
    extractFeatures [] = Except.error "Expected 21 hand landmarks" :=
  c3_requires_21_landmarks (fun _ => []) [] (by decide)

/-- C4.  For 21 landmarks, and for any estimator satisfying the fingerpose
contract (returned gestures are among the ten registered names and score at
least the 8.5 threshold), `predictGesture` returns an uppercase ASL letter
with strictly positive confidence. -/
theorem c4_prediction_wellformed (estimate : List (ℝ × ℝ × ℝ) → List FPGesture)
    (l : List HandLandmark) (h21 : l.length = 21)
    (hest : ∀ g ∈ estimate (l.map fun p => (p.x * 640, p.y * 480, p.z)),
       g.name ∈ fingerposeGestureNames ∧ (17/2 : ℚ) ≤ g.score) :
    (predictGesture estimate l).letter ∈ aslLabels ∧
    0 < (predictGesture estimate l).confidence := by
  have hne : ¬(l.length ≠ 21) := by omega
  have hrw : predictGesture estimate l =
      (match estimate (l.map fun p => (p.x * 640, p.y * 480, p.z)) with
       | bestGesture :: _ => (⟨bestGesture.name, bestGesture.score⟩ : ASLPrediction)
       | [] => heurGestures l) := by
    rw [predictGesture, if_neg hne]
  rw [hrw]
  cases hE : estimate (l.map fun p => (p.x * 640, p.y * 480, p.z)) with
  | nil => exact heurGestures_range l
  | cons g rest =>
    have hg := hest g (by rw [hE]; exact List.mem_cons_self g rest)
    constructor
    · have hsub : ∀ s ∈ fingerposeGestureNames, s ∈ aslLabels := by decide
      exact hsub _ hg.1
    · calc (0 : ℚ) < 17/2 := by norm_num
      _ ≤ g.score := hg.2

/-- C4, witness: 21 landmarks with an estimator that returns no gesture. -/
theorem c4_prediction_wellformed_witness :
    (predictGesture (fun _ => []) Z21).letter ∈ aslLabels ∧
    0 < (predictGesture (fun _ => []) Z21).confidence :=
  c4_prediction_wellformed (fun _ => []) Z21 (by simp [Z21]) (by simp)

/-- C8.  The useASLModel heuristic is total: on every landmark list and
random draw its letter is one of {A, S, D, I, V, L, U, W, B} and its
confidence lies in [0.5, 0.85]; malformed (too short) inputs take the
error branch and give the default prediction of 'A' at confidence 0.5. -/
theorem c8_model_heuristic_total_range (l : List HandLandmark) (rand : ℚ) :
    (heurModel l rand).letter ∈ ["A", "S", "D", "I", "V", "L", "U", "W", "B"] ∧
    1/2 ≤ (heurModel l rand).confidence ∧
    (heurModel l rand).confidence ≤ 17/20 ∧
    (l.length < 21 → heurModel l rand = ⟨"A", 1/2⟩) := by
  by_cases hl : l.length < 21
  · rw [heurModel, if_pos hl]
    exact ⟨by norm_num, by norm_num, by norm_num, fun _ => rfl⟩
  · rw [heurModel, if_neg hl]
    have h := modelClassify_range (extendedPattern l (3/4)) rand
    exact ⟨h.1, h.2.1, h.2.2, fun hc => absurd hc hl⟩

/-- C8, witness: the empty landmark list takes the error branch. -/
theorem c8_model_heuristic_total_range_witness :
    (heurModel [] 0).letter ∈ ["A", "S", "D", "I", "V", "L", "U", "W", "B"] ∧
    1/2 ≤ (heurModel [] 0).confidence ∧
    (heurModel [] 0).confidence ≤ 17/20 ∧
    (List.length ([] : List HandLandmark) < 21 → heurModel [] 0 = ⟨"A", 1/2⟩) :=
  c8_model_heuristic_total_range [] 0

/-- C5.  Submitting the text-to-sign form with blank (empty or
whitespace-only) input leaves the displayed sign unchanged; with non-blank
input the uppercased first character of the trimmed input is displayed
when it is one of the 26 `mockSignData` keys, and otherwise a random
`mockSignData` key is displayed. -/
theorem c5_text_to_sign_submit (input : String) (rand : ℚ) (current : Option String)
    (h0 : 0 ≤ rand) (h1 : rand < 1) :
    (input.trim = "" → handleSubmitTTS input rand current = current) ∧
    (input.trim ≠ "" →
      ((input.trim.take 1).toUpper ∈ mockSignKeys →
        handleSubmitTTS input rand current = some ((input.trim.take 1).toUpper)) ∧
      (¬ (input.trim.take 1).toUpper ∈ mockSignKeys →
        ∃ k ∈ mockSignKeys, handleSubmitTTS input rand current = some k)) := by
  constructor
  · intro he
    rw [handleSubmitTTS, if_neg (by simp [he])]
  · intro hne
    constructor
    · intro hc
      rw [handleSubmitTTS, if_pos hne, if_pos hc]
    · intro hc
      rw [handleSubmitTTS, if_pos hne, if_neg hc]
      refine ⟨mockSignKeys.getD (⌊rand * (mockSignKeys.length : ℚ)⌋.toNat) "", ?_, rfl⟩
      exact getD_mem _ _ _ (floorIdxLt h0 h1 (by decide))

/-- C5, witness: input "hello" displays the sign for 'H'. -/
theorem c5_text_to_sign_submit_witness :
    ("hello".trim = "" → handleSubmitTTS "hello" 0 none = none) ∧
    ("hello".trim ≠ "" →
      (("hello".trim.take 1).toUpper ∈ mockSignKeys →
        handleSubmitTTS "hello" 0 none = some (("hello".trim.take 1).toUpper)) ∧
      (¬ ("hello".trim.take 1).toUpper ∈ mockSignKeys →
        ∃ k ∈ mockSignKeys, handleSubmitTTS "hello" 0 none = some k)) :=
  c5_text_to_sign_submit "hello" 0 none (le_refl 0) (by norm_num)

/-- C9.  `detectSign` ignores its landmarks argument (the result is the
same function of the three random draws for any two argument values), and
for index draws in [0, 1) the resolved letter is one of the 16
`aslSequences` keys while the confidence is clamped into [0.6, 0.95]. -/
theorem c9_detect_sign_ignores_landmarks {α : Type} (l1 l2 : α)
    (rEasy rIdx rConf : ℚ) (h0 : 0 ≤ rIdx) (h1 : rIdx < 1) :
    detectSign l1 rEasy rIdx rConf = detectSign l2 rEasy rIdx rConf ∧
    (detectSign l1 rEasy rIdx rConf).1 ∈ aslSequences.map Prod.fst ∧
    3/5 ≤ (detectSign l1 rEasy rIdx rConf).2 ∧
    (detectSign l1 rEasy rIdx rConf).2 ≤ 19/20 := by
  refine ⟨rfl, ?_, ?_, ?_⟩
  · show (detectSign l1 rEasy rIdx rConf).1 ∈ aslSequences.map Prod.fst
    simp only [detectSign]
    by_cases hre : rEasy < 3/5
    · rw [if_pos hre]
      have hmem := getD_mem easyLetters (⌊rIdx * (easyLetters.length : ℚ)⌋.toNat) ""
        (floorIdxLt h0 h1 (by decide))
      have hsub : ∀ s ∈ easyLetters, s ∈ aslSequences.map Prod.fst := by decide
      exact hsub _ hmem
    · rw [if_neg hre]
      have hmem := getD_mem mediumLetters (⌊rIdx * (mediumLetters.length : ℚ)⌋.toNat) ""
        (floorIdxLt h0 h1 (by decide))
      have hsub : ∀ s ∈ mediumLetters, s ∈ aslSequences.map Prod.fst := by decide
      exact hsub _ hmem
  · show 3/5 ≤ (detectSign l1 rEasy rIdx rConf).2
    simp only [detectSign]
    exact le_max_left _ _
  · show (detectSign l1 rEasy rIdx rConf).2 ≤ 19/20
    simp only [detectSign]
    exact max_le (by norm_num) (min_le_left _ _)

/-- C9, witness: two distinct landmark arguments with the zero draws. -/
theorem c9_detect_sign_ignores_landmarks_witness :
    detectSign (0 : ℕ) 0 0 0 = detectSign (1 : ℕ) 0 0 0 ∧
    (detectSign (0 : ℕ) 0 0 0).1 ∈ aslSequences.map Prod.fst ∧
    3/5 ≤ (detectSign (0 : ℕ) 0 0 0).2 ∧
    (detectSign (0 : ℕ) 0 0 0).2 ≤ 19/20 :=
  c9_detect_sign_ignores_landmarks 0 1 0 0 0 (le_refl 0) (by norm_num)

/-- The first time accepted by a throttled callback is at least `interval`
after the stored time. -/
theorem throttleTimes_head (interval : ℤ) :
    ∀ (ts : List ℤ) (last t : ℤ),
      (throttleTimes interval last ts).head? = some t → interval ≤ t - last := by
  intro ts
  induction ts with
  | nil => intro last t h; simp [throttleTimes] at h
  | cons a as ih =>
    intro last t h
    rw [throttleTimes] at h
    by_cases hc : a - last < interval
    · rw [if_pos hc] at h
      exact ih last t h
    · rw [if_neg hc] at h
      simp only [List.head?_cons, Option.some.injEq] at h
      omega

/-- Consecutive accepted times of a throttled callback are at least
`interval` apart. -/
theorem throttleTimes_chain (interval : ℤ) :
    ∀ (ts : List ℤ) (last : ℤ),
      List.Chain' (fun a b => interval ≤ b - a) (throttleTimes interval last ts) := by
  intro ts
  induction ts with
  | nil => intro last; simp [throttleTimes]
  | cons a as ih =>
    intro last
    rw [throttleTimes]
    by_cases hc : a - last < interval
    · rw [if_pos hc]
      exact ih last
    · rw [if_neg hc]
      rw [List.chain'_cons']
      exact ⟨fun y hy => throttleTimes_head interval as a y hy, ih a⟩

/-- C6.  Consecutive hand-tracking results accepted by the `onResults`
callback are at least `RESULT_THROTTLE` = 200 ms apart, consecutive frames
forwarded by the `onFrame` callback are at least `FRAME_THROTTLE` = 100 ms
apart, and a result arriving sooner than 200 ms after the last accepted
one leaves the `lastResultTime`/`handsResult` state completely
unchanged. -/
theorem c6_throttling :
    (∀ ts : List ℤ, List.Chain' (fun a b => RESULT_THROTTLE ≤ b - a)
       (throttleTimes RESULT_THROTTLE 0 ts)) ∧
    (∀ ts : List ℤ, List.Chain' (fun a b => FRAME_THROTTLE ≤ b - a)
       (throttleTimes FRAME_THROTTLE 0 ts)) ∧
    (∀ (s : ℤ × HandsResult) (ev : ℤ × MPResult),
       ev.1 - s.1 < RESULT_THROTTLE → onResultsStep s ev = s) :=
  ⟨fun ts => throttleTimes_chain RESULT_THROTTLE ts 0,
   fun ts => throttleTimes_chain FRAME_THROTTLE ts 0,
   fun s ev h => by rw [onResultsStep, if_pos h]⟩

/-- C6, witness: a result 100 ms after the last accepted one is dropped
without a state change. -/
theorem c6_throttling_witness :
    onResultsStep (0, ⟨[], false, 0⟩) (100, ⟨[], none⟩) = (0, ⟨[], false, 0⟩) :=
  c6_throttling.2.2 (0, ⟨[], false, 0⟩) (100, ⟨[], none⟩) (by norm_num [RESULT_THROTTLE])

/-- A SignToText detection whose letter repeats the most recent entry
within 2000 ms is rejected. -/
theorem signToTextStep_reject (last : Translation) (rest : List Translation)
    (l : String) (c : ℚ) (now : ℤ)
    (hl : last.text = l) (ht : now - last.timestamp ≤ 2000) :
    signToTextStep (last :: rest) l c now = last :: rest := by
  rw [signToTextStep]
  by_cases he : l = ""
  · rw [if_pos he]
  · rw [if_neg he]
    have hb : (decide (last.text ≠ l) || decide (now - last.timestamp > 2000)) = false := by
      simp [hl, not_lt.mpr ht]
    rw [hb, if_neg (by simp)]

/-- Each SignToText step either leaves the history unchanged or prepends
the new entry and truncates to 15. -/
theorem signToTextStep_cases (s : List Translation) (l : String) (c : ℚ) (now : ℤ) :
    signToTextStep s l c now = s ∨
    signToTextStep s l c now = ((⟨l, now, c⟩ : Translation) :: s).take 15 := by
  rw [signToTextStep.eq_def]
  dsimp only
  repeat' split
  all_goals first
    | exact Or.inl rfl
    | exact Or.inr rfl

/-- The SignToText history length bound of 15 is preserved by each step. -/
theorem signToTextStep_length (s : List Translation) (l : String) (c : ℚ) (now : ℤ)
    (h : s.length ≤ 15) : (signToTextStep s l c now).length ≤ 15 := by
  rcases signToTextStep_cases s l c now with hc | hc <;> rw [hc]
  · exact h
  · simp [List.length_take]

/-- Folding any sequence of detections from the empty SignToText history
keeps at most 15 entries. -/
theorem signToText_fold_length (evs : List (String × ℚ × ℤ)) :
    (evs.foldl (fun acc e => signToTextStep acc e.1 e.2.1 e.2.2) []).length ≤ 15 := by
  have key : ∀ (evs2 : List (String × ℚ × ℤ)) (s : List Translation), s.length ≤ 15 →
      (evs2.foldl (fun acc e => signToTextStep acc e.1 e.2.1 e.2.2) s).length ≤ 15 := by
    intro evs2
    induction evs2 with
    | nil => intro s hs; exact hs
    | cons e es ih =>
      intro s hs
      exact ih _ (signToTextStep_length s e.1 e.2.1 e.2.2 hs)
  exact key evs [] (by simp)

/-- An App detection with confidence at most 0.6 is always rejected. -/
theorem appHandleDetection_conf_reject (ps : List AppPrediction) (p : String × ℚ)
    (now : ℤ) (h : p.2 ≤ 3/5) : appHandleDetection ps p now = ps := by
  rw [appHandleDetection.eq_def]
  have hb : decide (p.2 > 3/5) = false := by simp [not_lt.mpr h]
  simp [hb]

/-- An App detection whose letter repeats the most recent entry within
2000 ms is rejected. -/
theorem appHandleDetection_reject (last : AppPrediction) (rest : List AppPrediction)
    (p : String × ℚ) (now : ℤ)
    (hl : last.letter = p.1) (ht : now - last.timestamp ≤ 2000) :
    appHandleDetection (last :: rest) p now = last :: rest := by
  rw [appHandleDetection.eq_def]
  simp [hl, not_lt.mpr ht]

/-- Each App step either leaves the history unchanged or prepends the new
entry and truncates to 50. -/
theorem appHandleDetection_cases (ps : List AppPrediction) (p : String × ℚ) (now : ℤ) :
    appHandleDetection ps p now = ps ∨
    appHandleDetection ps p now = ((⟨p.1, p.2, now⟩ : AppPrediction) :: ps).take 50 := by
  rw [appHandleDetection.eq_def]
  dsimp only
  repeat' split
  all_goals first
    | exact Or.inl rfl
    | exact Or.inr rfl

/-- The App history length bound of 50 is preserved by each step. -/
theorem appHandleDetection_length (ps : List AppPrediction) (p : String × ℚ) (now : ℤ)
    (h : ps.length ≤ 50) : (appHandleDetection ps p now).length ≤ 50 := by
  rcases appHandleDetection_cases ps p now with hc | hc <;> rw [hc]
  · exact h
  · simp [List.length_take]

/-- Folding any sequence of predictions from the empty App history keeps
at most 50 entries. -/
theorem app_fold_length (evs : List ((String × ℚ) × ℤ)) :
    (evs.foldl (fun acc e => appHandleDetection acc e.1 e.2) []).length ≤ 50 := by
  have key : ∀ (evs2 : List ((String × ℚ) × ℤ)) (s : List AppPrediction), s.length ≤ 50 →
      (evs2.foldl (fun acc e => appHandleDetection acc e.1 e.2) s).length ≤ 50 := by
    intro evs2
    induction evs2 with
    | nil => intro s hs; exact hs
    | cons e es ih =>
      intro s hs
      exact ih _ (appHandleDetection_length s e.1 e.2 hs)
  exact key evs [] (by simp)

/-- C10.  The detection history is bounded and newest-first under every
sequence of detections: a detection is rejected when its letter matches
the most recent entry and no more than 2000 ms have passed (and, in the
App variant, whenever its confidence is at most 0.6); every step either
leaves the history unchanged or prepends; the SignToText history never
exceeds 15 entries and the App history never exceeds 50. -/
theorem c10_history_bounded :
    (∀ (last : Translation) (rest : List Translation) (l : String) (c : ℚ) (now : ℤ),
       last.text = l → now - last.timestamp ≤ 2000 →
       signToTextStep (last :: rest) l c now = last :: rest) ∧
    (∀ (s : List Translation) (l : String) (c : ℚ) (now : ℤ),
       signToTextStep s l c now = s ∨
       signToTextStep s l c now = ((⟨l, now, c⟩ : Translation) :: s).take 15) ∧
    (∀ evs : List (String × ℚ × ℤ),
       (evs.foldl (fun acc e => signToTextStep acc e.1 e.2.1 e.2.2) []).length ≤ 15) ∧
    (∀ (ps : List AppPrediction) (p : String × ℚ) (now : ℤ),
       p.2 ≤ 3/5 → appHandleDetection ps p now = ps) ∧
    (∀ (last : AppPrediction) (rest : List AppPrediction) (p : String × ℚ) (now : ℤ),
       last.letter = p.1 → now - last.timestamp ≤ 2000 →
       appHandleDetection (last :: rest) p now = last :: rest) ∧
    (∀ (ps : List AppPrediction) (p : String × ℚ) (now : ℤ),
       appHandleDetection ps p now = ps ∨
       appHandleDetection ps p now = ((⟨p.1, p.2, now⟩ : AppPrediction) :: ps).take 50) ∧
    (∀ evs : List ((String × ℚ) × ℤ),
       (evs.foldl (fun acc e => appHandleDetection acc e.1 e.2) []).length ≤ 50) :=
  ⟨signToTextStep_reject, signToTextStep_cases, signToText_fold_length,
   appHandleDetection_conf_reject, appHandleDetection_reject,
   appHandleDetection_cases, app_fold_length⟩

/-- C10, witness: a repeated letter arriving 1000 ms after the most recent
entry is rejected by the SignToText history. -/
theorem c10_history_bounded_witness :
    signToTextStep [⟨"A", 0, 1⟩] "A" 1 1000 = [⟨"A", 0, 1⟩] :=
  c10_history_bounded.1 ⟨"A", 0, 1⟩ [] "A" 1 1000 rfl (by norm_num)

/-- C2.  The pixel-colour/motion detector reports a hand exactly when a
previous frame is stored and, over the centred search region, the
hand-pixel ratio is strictly between 0.08 and 0.4, the motion-pixel ratio
(summed per-channel difference above 30) exceeds 0.05, and the absolute
hand-pixel count exceeds 50; on the first processed frame (no stored
previous frame) no hand is ever reported. -/
theorem c2_detector_criteria :
    (∀ (p cur : Frame),
       (detectHand (some p) cur = true ↔
         (((detectStats p cur).1 : ℚ) / ((detectStats p cur).2.2 : ℚ) > 2/25 ∧
          ((detectStats p cur).1 : ℚ) / ((detectStats p cur).2.2 : ℚ) < 2/5 ∧
          ((detectStats p cur).2.1 : ℚ) / ((detectStats p cur).2.2 : ℚ) > 1/20 ∧
          (detectStats p cur).1 > 50))) ∧
    (∀ cur : Frame, detectHand none cur = false) := by
  constructor
  · intro p cur
    simp only [detectHand, Option.isSome_some, Bool.true_and, Bool.and_eq_true,
      decide_eq_true_eq]
    constructor
    · rintro ⟨⟨⟨h1, h2⟩, h3⟩, h4⟩
      exact ⟨h1, h2, h3, by exact_mod_cast h4⟩
    · rintro ⟨h1, h2, h3, h4⟩
      exact ⟨⟨⟨h1, h2⟩, h3⟩, by exact_mod_cast h4⟩
  · intro cur
    simp [detectHand]

/-- C2, witness: the first processed frame of an all-black camera feed
reports no hand. -/
theorem c2_detector_criteria_witness :
    detectHand none ⟨320, 240, fun _ => 0⟩ = false :=
  c2_detector_criteria.2 ⟨320, 240, fun _ => 0⟩
